import Mathlib

/-!
Verification of the livestock-herd metrics program
(`functions/data_validation.py`, `livestock_project/project.py`).

Modelling conventions:
* a pandas `DataFrame` of animal rows is a `List AnimalRecord`;
* a timestamp (normalized date) is an `Int` day number, so that the
  pandas `(a - b).dt.days` difference is exact integer subtraction;
* a missing value (`NaN` / `NaT`) is `none` of an `Option`;
* Python floats are modelled as exact rationals `ℚ`;
* Python `round(x, n)` (round half to even) is `pyRound n x`;
* `pd.Timestamp.today().normalize()` is an explicit `today : Int` parameter;
* a fallible function returns `Except String`.
-/

/-- Rounding half to even of a rational to an integer, the rounding
mode of the Python built-in `round`. -/
def roundHalfEven (x : ℚ) : ℤ :=
  let n := ⌊x⌋
  let f := x - (n : ℚ)
  if f < 1/2 then n
  else if 1/2 < f then n + 1
  else if n % 2 = 0 then n else n + 1

/-- The Python `round(x, nd)` on exact rationals. -/
def pyRound (nd : ℕ) (x : ℚ) : ℚ :=
  ((roundHalfEven (x * (10 : ℚ) ^ nd) : ℤ) : ℚ) / (10 : ℚ) ^ nd

/-- Mean of a pandas series modelled as a list of optional rationals:
`NaN` entries (`none`) are skipped, and the mean of an empty or all-`NaN`
series is `NaN` (`none`), exactly as `Series.mean()` behaves. -/
def optMean (xs : List (Option ℚ)) : Option ℚ :=
  let v := xs.filterMap id
  if v.isEmpty then none else some (v.sum / (v.length : ℚ))

/-- One validated row of the animals table (columns of the `animals`
sheet after `load_animal_data` coercion). -/
structure AnimalRecord where
  animal_id : String
  sex : String
  birth_date : Option Int
  exit_date : Option Int
  exit_reason : Option String
  weight_birth_kg : Option ℚ
  weight_weaning_kg : Option ℚ
  weight_last_kg : Option ℚ
  last_weight_date : Option Int
deriving DecidableEq, Repr

/-- Result of `calculate_herd_structure` (project.py lines 24-58). -/
structure HerdStructureResult where
  total_animals : ℕ
  pct_females : ℚ
  pct_males : ℚ
  avg_age_years : Option ℚ
deriving DecidableEq, Repr

/-- Result of `calculate_productivity_metrics` (project.py lines 73-121). -/
structure ProductivityResult where
  avg_daily_gain_kg_day : Option ℚ
  mean_age_at_exit_years : Option ℚ
  pct_complete_weight_records : ℚ
deriving DecidableEq, Repr

/-- Result of `evaluate_sustainability` (project.py lines 204-210). -/
structure SustainabilityResult where
  total_lu : ℚ
  farm_area_ha : ℚ
  max_lu_per_ha : ℚ
  stocking_rate_lu_ha : ℚ
  sustainability_status : String
deriving DecidableEq, Repr

/-- Age in days of a row at its reference date:
`ref_date = exit_date if present else today`, `age = ref_date - birth_date`
(`NaN` when `birth_date` is missing).  project.py lines 42-46. -/
def ageDaysRow (today : Int) (r : AnimalRecord) : Option Int :=
  r.birth_date.map (fun bd => r.exit_date.getD today - bd)

/-- Raw female percentage `(females / total) * 100` before rounding,
project.py lines 34-38 (`value_counts` count of `"F"`). -/
def pctFemalesRaw (df : List AnimalRecord) : ℚ :=
  (((df.filter (fun r => r.sex = "F")).length : ℚ) / (df.length : ℚ)) * 100

/-- Raw male percentage `(males / total) * 100` before rounding,
project.py lines 35-39 (`value_counts` count of `"M"`). -/
def pctMalesRaw (df : List AnimalRecord) : ℚ :=
  (((df.filter (fun r => r.sex = "M")).length : ℚ) / (df.length : ℚ)) * 100

/-- Average age in years over rows, project.py lines 46-51:
ages in days (NaN when birth is missing) are masked to `NaN` unless
strictly positive (`age_days.where(age_days > 0)`), divided by 365.25
and averaged with NaN skipped. -/
def avgAgeYears (df : List AnimalRecord) (today : Int) : Option ℚ :=
  optMean (df.map (fun r =>
    (ageDaysRow today r).bind (fun d =>
      if 0 < d then some ((d : ℚ) / (365.25 : ℚ)) else none)))

/-- The function `calculate_herd_structure` (project.py lines 16-58). -/
def calculate_herd_structure (df : List AnimalRecord) (today : Int) :
    HerdStructureResult :=
  if df.isEmpty then
    { total_animals := 0, pct_females := 0, pct_males := 0, avg_age_years := none }
  else
    { total_animals := df.length
      pct_females := pyRound 2 (pctFemalesRaw df)
      pct_males := pyRound 2 (pctMalesRaw df)
      avg_age_years := (avgAgeYears df today).map (pyRound 2) }

/-- End date of a row for productivity: `last_weight_date` with fallback
to `exit_date` (`end_date.fillna(df["exit_date"])`, project.py lines 81-82). -/
def endDateRow (r : AnimalRecord) : Option Int :=
  r.last_weight_date.orElse (fun _ => r.exit_date)

/-- The completeness mask of project.py lines 84-89: birth weight, last
weight, birth date and end date are all present. -/
def isComplete (r : AnimalRecord) : Bool :=
  r.weight_birth_kg.isSome && r.weight_last_kg.isSome &&
    r.birth_date.isSome && (endDateRow r).isSome

/-- Raw completeness percentage `complete_mask.mean() * 100`
(project.py line 91) for a non-empty table. -/
def pctCompleteRaw (df : List AnimalRecord) : ℚ :=
  (((df.filter (fun r => isComplete r)).length : ℚ) / (df.length : ℚ)) * 100

/-- Average daily gain, project.py lines 93-106: among complete rows,
`days_alive = end_date - birth_date`, rows with non-positive days are
dropped, the gain `(weight_last - weight_birth) / days_alive` is averaged,
`NaN` when no row remains. -/
def avgDailyGain (df : List AnimalRecord) : Option ℚ :=
  let rows := (df.filter (fun r => isComplete r)).filterMap (fun r =>
    match r.birth_date, endDateRow r with
    | some bd, some ed =>
        if 0 < ed - bd then
          some ((r.weight_last_kg.getD 0 - r.weight_birth_kg.getD 0) /
            ((ed - bd : Int) : ℚ))
        else none
    | _, _ => none)
  if rows.isEmpty then none else some (rows.sum / (rows.length : ℚ))

/-- Mean age at exit in years, project.py lines 108-115: rows with both
`exit_date` and `birth_date` present, non-positive ages masked to `NaN`
(`age_exit_days.where(age_exit_days > 0)`), divided by 365.25 and
averaged with NaN skipped; `NaN` when no qualifying row. -/
def meanAgeAtExitYears (df : List AnimalRecord) : Option ℚ :=
  let rows := df.filter (fun r => r.exit_date.isSome && r.birth_date.isSome)
  optMean (rows.map (fun r =>
    match r.exit_date, r.birth_date with
    | some e, some b =>
        if 0 < e - b then some (((e - b : Int) : ℚ) / (365.25 : ℚ)) else none
    | _, _ => none))

/-- The function `calculate_productivity_metrics` (project.py lines 64-121). -/
def calculate_productivity_metrics (df : List AnimalRecord) :
    ProductivityResult :=
  if df.isEmpty then
    { avg_daily_gain_kg_day := none
      mean_age_at_exit_years := none
      pct_complete_weight_records := 0 }
  else
    { avg_daily_gain_kg_day := (avgDailyGain df).map (pyRound 4)
      mean_age_at_exit_years := (meanAgeAtExitYears df).map (pyRound 2)
      pct_complete_weight_records := pyRound 2 (pctCompleteRaw df) }

/-- Per-row livestock units, project.py lines 162-166:
`age_years = (reference_date - birth_date).days / 365.25`, negative ages
masked to `NaN` (`age_years.where(age_years >= 0)`); then
`np.where(age < 1, 0.4, np.where(age < 2, 0.6, 1.0))` overridden to `0.0`
where the age is `NaN` (missing birth date or negative age). -/
def rowLU (referenceDate : Int) (r : AnimalRecord) : ℚ :=
  match r.birth_date with
  | none => 0
  | some bd =>
      let ageYears : ℚ := ((referenceDate - bd : Int) : ℚ) / (365.25 : ℚ)
      if ageYears < 0 then 0
      else if ageYears < 1 then 0.4
      else if ageYears < 2 then 0.6
      else 1.0

/-- The method `Herd.total_livestock_units` (project.py lines 135-168): restrict to
rows without `exit_date` when `onlyActive`, sum the per-row livestock
units (the early `return 0.0` on an empty filtered frame coincides with
the empty sum). -/
def total_livestock_units (df : List AnimalRecord) (referenceDate : Int)
    (onlyActive : Bool) : ℚ :=
  let active := if onlyActive then df.filter (fun r => r.exit_date.isNone) else df
  (active.map (rowLU referenceDate)).sum

/-- Per-row livestock-unit contribution transcribed from the words of the
spec (section 4.4) for comparison with `rowLU`: 0.4 when 0 ≤ age < 1 year,
0.6 when 1 ≤ age < 2, 1.0 when age ≥ 2, and 0.0 when the birth date is
missing or the age is below zero. -/
def luContributionSpec (referenceDate : Int) (r : AnimalRecord) : ℚ :=
  match r.birth_date with
  | none => 0
  | some bd =>
      let age : ℚ := ((referenceDate - bd : Int) : ℚ) / (365.25 : ℚ)
      if 0 ≤ age ∧ age < 1 then 0.4
      else if 1 ≤ age ∧ age < 2 then 0.6
      else if 2 ≤ age then 1.0
      else 0

/-- The function `evaluate_sustainability` (project.py lines 174-210); `today` stands
for `pd.Timestamp.today().normalize()`, the reference date used by
`total_livestock_units` when the caller supplies none. -/
def evaluate_sustainability (df : List AnimalRecord) (farm_area_ha : ℚ)
    (max_lu_per_ha : ℚ) (today : Int) : Except String SustainabilityResult :=
  if farm_area_ha ≤ 0 then
    .error "farm_area_ha tem de ser > 0 para calcular LU/ha."
  else if max_lu_per_ha ≤ 0 then
    .error "max_lu_per_ha tem de ser > 0."
  else
    let total_lu := total_livestock_units df today true
    let stocking_rate := total_lu / farm_area_ha
    let status :=
      if stocking_rate ≤ max_lu_per_ha then "OK"
      else if stocking_rate ≤ (1.10 : ℚ) * max_lu_per_ha then "AT RISK"
      else "CRITICAL"
    .ok { total_lu := pyRound 2 total_lu
          farm_area_ha := farm_area_ha
          max_lu_per_ha := max_lu_per_ha
          stocking_rate_lu_ha := pyRound 3 stocking_rate
          sustainability_status := status }

/-!
Model of the validator `load_animal_data` (data_validation.py).
A raw spreadsheet cell is abstracted by what the pandas coercions can make
of it: `RawCell.date d` is a cell `pd.to_datetime` parses to day `d`,
`RawCell.num q` is a cell `pd.to_numeric` parses to `q`, `RawCell.text s`
is an unparseable cell, `RawCell.na` is an empty cell.
-/

/-- A raw spreadsheet cell before type coercion. -/
inductive RawCell where
  | na : RawCell
  | date : Int → RawCell
  | num : ℚ → RawCell
  | text : String → RawCell
deriving DecidableEq, Repr

/-- Model of `pd.to_datetime(cell, errors="coerce")`: a parseable date survives,
anything else becomes `NaT` (missing). -/
def parseDateCell : RawCell → Option Int
  | .date d => some d
  | _ => none

/-- Model of `pd.to_numeric(cell, errors="coerce")`: a parseable number survives,
anything else becomes `NaN` (missing). -/
def parseNumCell : RawCell → Option ℚ
  | .num q => some q
  | _ => none

/-- One raw row of the animals sheet; `animal_id` and `sex` carry the
string the validator inspects (`astype(str)` on identifiers). -/
structure RawRow where
  animal_id : String
  sex : String
  birth_date : RawCell
  exit_date : RawCell
  exit_reason : Option String
  weight_birth_kg : RawCell
  weight_weaning_kg : RawCell
  weight_last_kg : RawCell
  last_weight_date : RawCell
deriving DecidableEq, Repr

/-- A raw sheet: its column names and its rows. -/
structure RawTable where
  columns : List String
  rows : List RawRow
deriving DecidableEq, Repr

/-- The nine required columns of data_validation.py lines 13-23. -/
def requiredColumns : List String :=
  ["animal_id", "sex", "birth_date", "exit_date", "exit_reason",
   "weight_birth_kg", "weight_weaning_kg", "weight_last_kg",
   "last_weight_date"]

/-- The pattern `^PT` followed by exactly nine digits and the end of the
string (data_validation.py line 35), decided on the character list. -/
def matchesAnimalId (s : String) : Bool :=
  match s.toList with
  | 'P' :: 'T' :: rest => rest.length = 9 && rest.all (fun c => c.isDigit)
  | _ => false

/-- Type coercion applied to one row: the three date columns through
`pd.to_datetime(errors="coerce")` and the three weight columns through
`pd.to_numeric(errors="coerce")` (data_validation.py lines 29-32, 46-49). -/
def coerceRow (r : RawRow) : AnimalRecord :=
  { animal_id := r.animal_id
    sex := r.sex
    birth_date := parseDateCell r.birth_date
    exit_date := parseDateCell r.exit_date
    exit_reason := r.exit_reason
    weight_birth_kg := parseNumCell r.weight_birth_kg
    weight_weaning_kg := parseNumCell r.weight_weaning_kg
    weight_last_kg := parseNumCell r.weight_last_kg
    last_weight_date := parseDateCell r.last_weight_date }

/-- The function `load_animal_data` (data_validation.py lines 4-51): check required
columns, coerce dates, validate identifier format, validate sex values,
coerce weights.  The pure per-cell coercions commute with the row-level
checks, so they are applied in one final map. -/
def load_animal_data (t : RawTable) : Except String (List AnimalRecord) :=
  if requiredColumns.any (fun c => !(t.columns.contains c)) then
    .error "Missing required columns"
  else if t.rows.any (fun r => !(matchesAnimalId r.animal_id)) then
    .error "Invalid animal_id format detected (expected PT + 9 digits)."
  else if t.rows.any (fun r => !(r.sex = "M" || r.sex = "F")) then
    .error "Invalid sex values detected (allowed: M or F)."
  else
    .ok (t.rows.map coerceRow)

/-! ## Helper lemmas -/

lemma optMean_append_none (xs : List (Option ℚ)) :
    optMean (xs ++ [none]) = optMean xs := by
  simp [optMean, List.filterMap_append]

lemma rowLU_nonneg (ref : Int) (r : AnimalRecord) : 0 ≤ rowLU ref r := by
  rcases r with ⟨aid, sx, bd, ed, er, wb, ww, wl, lwd⟩
  rcases bd with _ | b
  · simp [rowLU]
  · simp only [rowLU]
    split_ifs <;> norm_num

lemma rowLU_eq_luContributionSpec (ref : Int) (r : AnimalRecord) :
    rowLU ref r = luContributionSpec ref r := by
  rcases r with ⟨aid, sx, bd, ed, er, wb, ww, wl, lwd⟩
  rcases bd with _ | b
  · rfl
  · simp only [rowLU, luContributionSpec]
    set age : ℚ := ((ref - b : Int) : ℚ) / (365.25 : ℚ) with hage
    rcases lt_or_le age 0 with h0 | h0
    · rw [if_pos h0, if_neg (fun hc => absurd h0 (not_lt.mpr hc.1)),
        if_neg (fun hc : 1 ≤ age ∧ age < 2 => by linarith [hc.1]),
        if_neg (fun hc : 2 ≤ age => by linarith)]
    · rw [if_neg (not_lt.mpr h0)]
      rcases lt_or_le age 1 with h1 | h1
      · rw [if_pos h1, if_pos ⟨h0, h1⟩]
      · rw [if_neg (not_lt.mpr h1),
          if_neg (fun hc : 0 ≤ age ∧ age < 1 => absurd hc.2 (not_lt.mpr h1))]
        rcases lt_or_le age 2 with h2 | h2
        · rw [if_pos h2, if_pos ⟨h1, h2⟩]
        · rw [if_neg (not_lt.mpr h2),
            if_neg (fun hc : 1 ≤ age ∧ age < 2 => absurd hc.2 (not_lt.mpr h2)),
            if_pos h2]

/-! ## Claims -/

/-- C5: on the empty table each calculator returns its zero/undefined
defaults and never raises: `calculate_herd_structure` returns 0 animals,
0.0 percentages and an undefined average age; `calculate_productivity_metrics`
returns undefined gain, undefined age at exit and completeness 0.0;
`total_livestock_units` returns 0.0 on the empty (possibly
active-restricted) table. -/
theorem empty_table_defaults (today ref : Int) (b : Bool) :
    calculate_herd_structure [] today =
      { total_animals := 0, pct_females := 0, pct_males := 0,
        avg_age_years := none } ∧
    calculate_productivity_metrics [] =
      { avg_daily_gain_kg_day := none, mean_age_at_exit_years := none,
        pct_complete_weight_records := 0 } ∧
    total_livestock_units [] ref b = 0 := by
  refine ⟨rfl, rfl, ?_⟩
  cases b <;> simp [total_livestock_units]

/-- C3: `evaluate_sustainability` raises an error if and only if
`farm_area_ha ≤ 0` or `max_lu_per_ha ≤ 0`; when both parameters are
strictly positive it returns normally. -/
theorem evaluate_sustainability_error_iff (df : List AnimalRecord)
    (a m : ℚ) (today : Int) :
    ((∃ msg, evaluate_sustainability df a m today = .error msg) ↔
      a ≤ 0 ∨ m ≤ 0) ∧
    (0 < a → 0 < m → ∃ res, evaluate_sustainability df a m today = .ok res) := by
  constructor
  · constructor
    · rintro ⟨msg, hmsg⟩
      by_contra hc
      push_neg at hc
      rw [evaluate_sustainability, if_neg (not_le.mpr hc.1),
        if_neg (not_le.mpr hc.2)] at hmsg
      exact absurd hmsg (by simp)
    · intro h
      by_cases ha : a ≤ 0
      · exact ⟨_, by rw [evaluate_sustainability, if_pos ha]⟩
      · have hm : m ≤ 0 := h.resolve_left ha
        exact ⟨_, by rw [evaluate_sustainability, if_neg ha, if_pos hm]⟩
  · intro ha hm
    exact ⟨_, by rw [evaluate_sustainability, if_neg (not_le.mpr ha),
      if_neg (not_le.mpr hm)]⟩

/-- Witness for C3: with both parameters 1 the evaluator returns
normally, and with area 0 it errors. -/
theorem evaluate_sustainability_error_iff_witness :
    (∃ res, evaluate_sustainability [] 1 1 0 = .ok res) ∧
    (∃ msg, evaluate_sustainability [] 0 1 0 = .error msg) := by
  constructor
  · exact (evaluate_sustainability_error_iff [] 1 1 0).2 (by norm_num) (by norm_num)
  · exact ((evaluate_sustainability_error_iff [] 0 1 0).1).mpr (Or.inl le_rfl)

/-- C1: for positive parameters `evaluate_sustainability` classifies the
unrounded stocking rate (total LU over area): rate ≤ max is "OK",
max < rate ≤ 1.10·max is "AT RISK" (upper bound inclusive), and
rate > 1.10·max is "CRITICAL". -/
theorem sustainability_status_classification (df : List AnimalRecord)
    (a m : ℚ) (today : Int) (ha : 0 < a) (hm : 0 < m) :
    ∃ res, evaluate_sustainability df a m today = .ok res ∧
      (total_livestock_units df today true / a ≤ m →
        res.sustainability_status = "OK") ∧
      (m < total_livestock_units df today true / a →
        total_livestock_units df today true / a ≤ (1.10 : ℚ) * m →
        res.sustainability_status = "AT RISK") ∧
      ((1.10 : ℚ) * m < total_livestock_units df today true / a →
        res.sustainability_status = "CRITICAL") := by
  refine ⟨_, by rw [evaluate_sustainability, if_neg (not_le.mpr ha),
    if_neg (not_le.mpr hm)], ?_, ?_, ?_⟩
  · intro h
    simp only [if_pos h]
  · intro h1 h2
    rw [if_neg (not_le.mpr h1), if_pos h2]
  · intro h
    have h1 : m < total_livestock_units df today true / a := by linarith
    rw [if_neg (not_le.mpr h1), if_neg (not_le.mpr h)]

/-- Witness for C1: the empty herd has rate 0 ≤ 1 and is classified "OK". -/
theorem sustainability_status_classification_witness :
    ∃ res, evaluate_sustainability [] 1 1 0 = .ok res ∧
      res.sustainability_status = "OK" := by
  obtain ⟨res, hok, hOK, _, _⟩ :=
    sustainability_status_classification [] 1 1 0 (by norm_num) (by norm_num)
  exact ⟨res, hok, hOK (by norm_num [total_livestock_units])⟩

/-- C2: restricted to active rows (no exit date),
`total_livestock_units` returns exactly the sum of the per-row
contributions dictated by the spec age brackets: 0.4 for 0 ≤ age < 1,
0.6 for 1 ≤ age < 2, 1.0 for age ≥ 2, and 0.0 for a missing birth date
or a negative age. -/
theorem total_livestock_units_eq_spec_sum (df : List AnimalRecord) (ref : Int) :
    total_livestock_units df ref true =
      ((df.filter (fun r => r.exit_date.isNone)).map (luContributionSpec ref)).sum := by
  have hfun : rowLU ref = luContributionSpec ref :=
    funext fun r => rowLU_eq_luContributionSpec ref r
  simp [total_livestock_units, hfun]

/-- C8: adding an active animal with a present birth date never decreases
the livestock-unit total. -/
theorem total_livestock_units_monotone (df : List AnimalRecord) (ref : Int)
    (r : AnimalRecord) (hactive : r.exit_date = none)
    (hbirth : r.birth_date.isSome = true) :
    total_livestock_units df ref true ≤
      total_livestock_units (df ++ [r]) ref true := by
  simp only [total_livestock_units, if_pos, List.filter_append,
    List.map_append, List.sum_append]
  have hr : List.filter (fun r => r.exit_date.isNone) [r] = [r] := by
    simp [List.filter_cons, hactive]
  rw [hr]
  simp only [List.map_cons, List.map_nil, List.sum_cons, List.sum_nil, add_zero]
  exact le_add_of_nonneg_right (rowLU_nonneg ref r)

/-! ## Sample rows used by the witnesses -/

/-- A female with birth day 0, exit day 400 and both weights recorded. -/
def rowF1 : AnimalRecord :=
  { animal_id := "PT000000001", sex := "F", birth_date := some 0,
    exit_date := some 400, exit_reason := none, weight_birth_kg := some 35,
    weight_weaning_kg := none, weight_last_kg := some 350,
    last_weight_date := none }

/-- An active female born 1000 days before day 0. -/
def rowF2 : AnimalRecord :=
  { animal_id := "PT000000002", sex := "F", birth_date := some (-1000),
    exit_date := none, exit_reason := none, weight_birth_kg := none,
    weight_weaning_kg := none, weight_last_kg := none,
    last_weight_date := none }

/-- An active male born on day 200. -/
def rowM1 : AnimalRecord :=
  { animal_id := "PT000000003", sex := "M", birth_date := some 200,
    exit_date := none, exit_reason := none, weight_birth_kg := none,
    weight_weaning_kg := none, weight_last_kg := none,
    last_weight_date := none }

/-- A corrupt row: its exit day 50 precedes its birth day 100, so every
duration computed from it is negative. -/
def rowBad : AnimalRecord :=
  { animal_id := "PT000000004", sex := "M", birth_date := some 100,
    exit_date := some 50, exit_reason := none, weight_birth_kg := some 30,
    weight_weaning_kg := none, weight_last_kg := some 300,
    last_weight_date := none }

/-- Witness for C8: appending the active animal `rowF2` to `[rowF1]`
does not decrease the livestock-unit total. -/
theorem total_livestock_units_monotone_witness :
    total_livestock_units [rowF1] 0 true ≤
      total_livestock_units ([rowF1] ++ [rowF2]) 0 true :=
  total_livestock_units_monotone [rowF1] 0 rowF2 rfl rfl

lemma count_F_add_count_M (df : List AnimalRecord)
    (h : ∀ r ∈ df, r.sex = "M" ∨ r.sex = "F") :
    (df.filter (fun r => r.sex = "F")).length +
      (df.filter (fun r => r.sex = "M")).length = df.length := by
  induction df with
  | nil => simp
  | cons a t ih =>
    have ha := h a (List.mem_cons_self a t)
    have ht : ∀ r ∈ t, r.sex = "M" ∨ r.sex = "F" :=
      fun x hx => h x (List.mem_cons_of_mem a hx)
    have ihr := ih ht
    rcases ha with hM | hF
    · simp only [List.filter_cons, hM]
      simp
      omega
    · simp only [List.filter_cons, hF]
      simp
      omega

/-- C6: for a non-empty table whose sex values all lie in the set of
"M" and "F", the raw female and male fractions (each count over total,
times 100) sum to exactly 100 before the 2-decimal rounding, and
`calculate_herd_structure` reports exactly the 2-decimal roundings of
those fractions. -/
theorem pct_sex_sum_100 (df : List AnimalRecord) (today : Int)
    (hne : df ≠ [])
    (hsex : ∀ r ∈ df, r.sex = "M" ∨ r.sex = "F") :
    pctFemalesRaw df + pctMalesRaw df = 100 ∧
    (calculate_herd_structure df today).pct_females =
      pyRound 2 (pctFemalesRaw df) ∧
    (calculate_herd_structure df today).pct_males =
      pyRound 2 (pctMalesRaw df) := by
  have hcount := count_F_add_count_M df hsex
  have hlen : (0 : ℚ) < (df.length : ℚ) := by
    exact_mod_cast List.length_pos.mpr hne
  refine ⟨?_, ?_, ?_⟩
  · unfold pctFemalesRaw pctMalesRaw
    have hcast : ((df.filter (fun r => r.sex = "F")).length : ℚ) +
        ((df.filter (fun r => r.sex = "M")).length : ℚ) = (df.length : ℚ) := by
      exact_mod_cast hcount
    field_simp
    linarith
  · simp [calculate_herd_structure, List.isEmpty_iff, hne]
  · simp [calculate_herd_structure, List.isEmpty_iff, hne]

/-- Witness for C6 at the three-row table with two females and one male. -/
theorem pct_sex_sum_100_witness :
    pctFemalesRaw [rowF1, rowF2, rowM1] + pctMalesRaw [rowF1, rowF2, rowM1] = 100 ∧
    (calculate_herd_structure [rowF1, rowF2, rowM1] 0).pct_females =
      pyRound 2 (pctFemalesRaw [rowF1, rowF2, rowM1]) ∧
    (calculate_herd_structure [rowF1, rowF2, rowM1] 0).pct_males =
      pyRound 2 (pctMalesRaw [rowF1, rowF2, rowM1]) :=
  pct_sex_sum_100 [rowF1, rowF2, rowM1] 0 (by simp)
    (by decide)

/-- C7: for a non-empty table the completeness percentage is the number
of rows with birth weight, last weight, birth date and end date (last
weight date with fallback to exit date) all present, over the number of
all rows, times 100, rounded to 2 decimals. -/
theorem pct_complete_denominator_all_rows (df : List AnimalRecord)
    (hne : df ≠ []) :
    (calculate_productivity_metrics df).pct_complete_weight_records =
      pyRound 2 ((((df.filter (fun r =>
        r.weight_birth_kg.isSome && r.weight_last_kg.isSome &&
          r.birth_date.isSome &&
          (r.last_weight_date.orElse (fun _ => r.exit_date)).isSome)).length : ℚ) /
        (df.length : ℚ)) * 100) := by
  simp [calculate_productivity_metrics, List.isEmpty_iff, hne,
    pctCompleteRaw, isComplete, endDateRow]

/-- Witness for C7 at a two-row table with one complete row. -/
theorem pct_complete_denominator_all_rows_witness :
    (calculate_productivity_metrics [rowF1, rowM1]).pct_complete_weight_records =
      pyRound 2 (((([rowF1, rowM1].filter (fun r =>
        r.weight_birth_kg.isSome && r.weight_last_kg.isSome &&
          r.birth_date.isSome &&
          (r.last_weight_date.orElse (fun _ => r.exit_date)).isSome)).length : ℚ) /
        (([rowF1, rowM1] : List AnimalRecord).length : ℚ)) * 100) :=
  pct_complete_denominator_all_rows [rowF1, rowM1] (by simp)

lemma avgAgeYears_append_nonpos (df : List AnimalRecord) (today : Int)
    (r : AnimalRecord) (b : Int) (hb : r.birth_date = some b)
    (href : r.exit_date.getD today - b ≤ 0) :
    avgAgeYears (df ++ [r]) today = avgAgeYears df today := by
  have hrow : (ageDaysRow today r).bind
      (fun d => if 0 < d then some ((d : ℚ) / (365.25 : ℚ)) else none) = none := by
    unfold ageDaysRow
    rw [hb]
    exact if_neg (not_lt.mpr href)
  unfold avgAgeYears
  rw [List.map_append]
  simp only [List.map_cons, List.map_nil, hrow]
  rw [optMean_append_none]

lemma avgDailyGain_append_nonpos (df : List AnimalRecord)
    (r : AnimalRecord) (b : Int) (hb : r.birth_date = some b)
    (hend : ∀ e, endDateRow r = some e → e - b ≤ 0) :
    avgDailyGain (df ++ [r]) = avgDailyGain df := by
  have hfr : (match r.birth_date, endDateRow r with
      | some bd, some ed =>
          if 0 < ed - bd then
            some ((r.weight_last_kg.getD 0 - r.weight_birth_kg.getD 0) /
              ((ed - bd : Int) : ℚ))
          else none
      | _, _ => none) = none := by
    rcases hed : endDateRow r with _ | e
    · simp only [hb, hed]
    · simp only [hb, hed]
      exact if_neg (not_lt.mpr (hend e hed))
  unfold avgDailyGain
  simp only [List.filter_append, List.filter_singleton]
  cases hc : isComplete r
  · simp only [hc, Bool.cond_false, List.append_nil]
  · simp only [hc, Bool.cond_true, List.filterMap_append, List.filterMap_cons,
      List.filterMap_nil, hfr, List.append_nil]

lemma meanAgeAtExitYears_append_nonpos (df : List AnimalRecord)
    (r : AnimalRecord) (b : Int) (hb : r.birth_date = some b)
    (hexit : ∀ e, r.exit_date = some e → e - b ≤ 0) :
    meanAgeAtExitYears (df ++ [r]) = meanAgeAtExitYears df := by
  unfold meanAgeAtExitYears
  simp only [List.filter_append, List.filter_singleton]
  rcases hed : r.exit_date with _ | e
  · simp only [hed, Option.isSome_none, Bool.false_and, Bool.cond_false,
      List.append_nil]
  · simp only [hed, hb, Option.isSome_some, Bool.and_self, Bool.cond_true,
      List.map_append, List.map_cons, List.map_nil,
      if_neg (not_lt.mpr (hexit e hed))]
    rw [optMean_append_none]

/-- C4: a row whose computed duration is non-positive (its reference or
end date does not lie strictly after its birth date) contributes to none
of the three means: appending it changes neither the average age of
`calculate_herd_structure` nor the average daily gain nor the mean age
at exit of `calculate_productivity_metrics`. -/
theorem nonpositive_duration_excluded_from_means (df : List AnimalRecord)
    (today : Int) (r : AnimalRecord) (b : Int)
    (hb : r.birth_date = some b)
    (href : r.exit_date.getD today - b ≤ 0)
    (hend : ∀ e, endDateRow r = some e → e - b ≤ 0) :
    (calculate_herd_structure (df ++ [r]) today).avg_age_years =
      (calculate_herd_structure df today).avg_age_years ∧
    (calculate_productivity_metrics (df ++ [r])).avg_daily_gain_kg_day =
      (calculate_productivity_metrics df).avg_daily_gain_kg_day ∧
    (calculate_productivity_metrics (df ++ [r])).mean_age_at_exit_years =
      (calculate_productivity_metrics df).mean_age_at_exit_years := by
  have hexit : ∀ e, r.exit_date = some e → e - b ≤ 0 := by
    intro e he
    have h := href
    rw [he] at h
    simpa using h
  refine ⟨?_, ?_, ?_⟩
  · rcases df with _ | ⟨d, ds⟩
    · have h1 : avgAgeYears [r] today = none := by
        have h := avgAgeYears_append_nonpos [] today r b hb href
        simpa [avgAgeYears, optMean] using h
      simp [calculate_herd_structure, h1]
    · have hA := avgAgeYears_append_nonpos (d :: ds) today r b hb href
      simp only [List.cons_append] at hA
      simp [calculate_herd_structure, hA]
  · rcases df with _ | ⟨d, ds⟩
    · have h1 : avgDailyGain [r] = none := by
        have h := avgDailyGain_append_nonpos [] r b hb hend
        simpa [avgDailyGain] using h
      simp [calculate_productivity_metrics, h1]
    · have hA := avgDailyGain_append_nonpos (d :: ds) r b hb hend
      simp only [List.cons_append] at hA
      simp [calculate_productivity_metrics, hA]
  · rcases df with _ | ⟨d, ds⟩
    · have h1 : meanAgeAtExitYears [r] = none := by
        have h := meanAgeAtExitYears_append_nonpos [] r b hb hexit
        simpa [meanAgeAtExitYears, optMean] using h
      simp [calculate_productivity_metrics, h1]
    · have hA := meanAgeAtExitYears_append_nonpos (d :: ds) r b hb hexit
      simp only [List.cons_append] at hA
      simp [calculate_productivity_metrics, hA]

/-- Witness for C4: appending `rowBad` (exit day 50 before birth day 100)
to the one-row table `[rowF1]` leaves all three means unchanged. -/
theorem nonpositive_duration_excluded_from_means_witness :
    (calculate_herd_structure ([rowF1] ++ [rowBad]) 1000).avg_age_years =
      (calculate_herd_structure [rowF1] 1000).avg_age_years ∧
    (calculate_productivity_metrics ([rowF1] ++ [rowBad])).avg_daily_gain_kg_day =
      (calculate_productivity_metrics [rowF1]).avg_daily_gain_kg_day ∧
    (calculate_productivity_metrics ([rowF1] ++ [rowBad])).mean_age_at_exit_years =
      (calculate_productivity_metrics [rowF1]).mean_age_at_exit_years :=
  nonpositive_duration_excluded_from_means [rowF1] 1000 rowBad 100 rfl
    (by decide)
    (by
      intro e he
      simp [endDateRow, rowBad] at he
      omega)

/-- C9: when the nine required columns are present, every identifier
matches the `PT` plus nine digits pattern and every sex is "M" or "F",
`load_animal_data` succeeds with exactly one coerced output row per input
row, and unparseable date or numeric cells are coerced to missing values
rather than causing a failure. -/
theorem load_animal_data_preserves_rows (t : RawTable)
    (hcols : ∀ c ∈ requiredColumns, c ∈ t.columns)
    (hid : ∀ r ∈ t.rows, matchesAnimalId r.animal_id = true)
    (hsex : ∀ r ∈ t.rows, r.sex = "M" ∨ r.sex = "F") :
    load_animal_data t = .ok (t.rows.map coerceRow) ∧
    (t.rows.map coerceRow).length = t.rows.length ∧
    ∀ s, parseDateCell (RawCell.text s) = none ∧
      parseNumCell (RawCell.text s) = none := by
  refine ⟨?_, by simp, fun s => ⟨rfl, rfl⟩⟩
  have h1 : (requiredColumns.any (fun c => !(t.columns.contains c))) = false := by
    rw [List.any_eq_false]
    intro c hc
    simp [hcols c hc]
  have h2 : (t.rows.any (fun r => !(matchesAnimalId r.animal_id))) = false := by
    rw [List.any_eq_false]
    intro r hr
    simp [hid r hr]
  have h3 : (t.rows.any (fun r => !(r.sex = "M" || r.sex = "F"))) = false := by
    rw [List.any_eq_false]
    intro r hr
    rcases hsex r hr with h | h <;> simp [h]
  rw [load_animal_data, h1, h2, h3]
  simp

/-- A raw one-row sheet whose last weight and last weight date cells are
unparseable text. -/
def rawTableW : RawTable :=
  { columns := requiredColumns
    rows := [{ animal_id := "PT123456789", sex := "F",
               birth_date := .date 0, exit_date := .na, exit_reason := none,
               weight_birth_kg := .num 35, weight_weaning_kg := .na,
               weight_last_kg := .text "n.a.", last_weight_date := .text "soon" }] }

/-- Witness for C9 at the concrete one-row raw sheet `rawTableW`. -/
theorem load_animal_data_preserves_rows_witness :
    load_animal_data rawTableW = .ok (rawTableW.rows.map coerceRow) ∧
    (rawTableW.rows.map coerceRow).length = rawTableW.rows.length ∧
    ∀ s, parseDateCell (RawCell.text s) = none ∧
      parseNumCell (RawCell.text s) = none :=
  load_animal_data_preserves_rows rawTableW (by decide) (by decide) (by decide)

/-- C10: the status label is decided on the unrounded stocking rate while
the reported rate is rounded to 3 decimals and the total LU to 2; in
particular there is an input whose reported rate equals the maximum
threshold although its status is "AT RISK". -/
theorem status_uses_unrounded_rate :
    (∀ (df : List AnimalRecord) (a m : ℚ) (today : Int), 0 < a → 0 < m →
      evaluate_sustainability df a m today = .ok
        { total_lu := pyRound 2 (total_livestock_units df today true)
          farm_area_ha := a
          max_lu_per_ha := m
          stocking_rate_lu_ha :=
            pyRound 3 (total_livestock_units df today true / a)
          sustainability_status :=
            if total_livestock_units df today true / a ≤ m then "OK"
            else if total_livestock_units df today true / a ≤ (1.10 : ℚ) * m then
              "AT RISK"
            else "CRITICAL" }) ∧
    (∃ res, evaluate_sustainability [rowF2] (2499/2500) 1 0 = .ok res ∧
      res.stocking_rate_lu_ha = res.max_lu_per_ha ∧
      res.sustainability_status = "AT RISK") := by
  constructor
  · intro df a m today ha hm
    rw [evaluate_sustainability, if_neg (not_le.mpr ha), if_neg (not_le.mpr hm)]
  · refine ⟨{ total_lu := 1, farm_area_ha := 2499/2500, max_lu_per_ha := 1,
              stocking_rate_lu_ha := 1, sustainability_status := "AT RISK" },
      ?_, rfl, rfl⟩
    norm_num [evaluate_sustainability, total_livestock_units, rowLU, rowF2,
      pyRound, roundHalfEven]

/-- Witness for C10: the universally quantified half instantiated at the
empty table with both parameters 1. -/
theorem status_uses_unrounded_rate_witness :
    evaluate_sustainability [] 1 1 0 = .ok
      { total_lu := pyRound 2 (total_livestock_units [] 0 true)
        farm_area_ha := 1
        max_lu_per_ha := 1
        stocking_rate_lu_ha := pyRound 3 (total_livestock_units [] 0 true / 1)
        sustainability_status :=
          if total_livestock_units [] 0 true / 1 ≤ 1 then "OK"
          else if total_livestock_units [] 0 true / 1 ≤ (1.10 : ℚ) * 1 then
            "AT RISK"
          else "CRITICAL" } :=
  status_uses_unrounded_rate.1 [] 1 1 0 (by norm_num) (by norm_num)
